import Mathlib

/-!
Verification development for the sweater-chart generator backend
(`backend/main.py`).  The chart is a 2-D integer array of stitch-symbol
codes; the central primitive is `Chart._replace_in`, a sliding-window
template match-and-stamp over the array, and `Chart._insert_symbol`
drives a fixed sequence of such passes (marker seeding, horizontal
marker propagation to a fixed point, bind-off/decrease/increase
stamping).  `Chart.from_shape` rasterizes a closed outline into the
occupancy grid that `_insert_symbol` consumes.

Symbol codes used below (class `Symbol` in the source):
`0` empty, `1` knit, `2` increase, `11` right decrease, `21` left
decrease, `60` bind-off, `-101` / `-102` the two transient markers.
-/

/-- A chart grid: a 2-D array of symbol codes with shape `h × w`,
modelled as a total cell function (values outside the `h × w` domain
are padding and never observed by the modelled operations). -/
structure Grid where
  h : Nat
  w : Nat
  cell : Nat → Nat → Int

/-- Build a grid from a list of rows, mirroring a numpy array literal:
shape is (number of rows, length of the first row); out-of-range
lookups default to `0`. -/
def Grid.ofList (l : List (List Int)) : Grid :=
  { h := l.length
    w := (l.headD []).length
    cell := fun r c => (l.getD r []).getD c 0 }

/-- The template `t` matches grid `g` at top-left corner `(i, j)`:
every template cell equals the corresponding grid cell.  This is one
entry of `final_mask` in `Chart._replace_in` (templates have no
wildcard cells). -/
def matchAt (g t : Grid) (i j : Nat) : Prop :=
  ∀ y < t.h, ∀ x < t.w, g.cell (i + y) (j + x) = t.cell y x

instance (g t : Grid) (i j : Nat) : Decidable (matchAt g t i j) := by
  unfold matchAt; infer_instance

/-- Position `(r, c)` receives the replacement value in one call of
`Chart._replace_in` on entry grid `g`: some searched corner `(i, j)`
(row `i` in the strided row range starting at `startRow`, template
fitting inside the grid) matches the template against the entry grid,
and `(r, c)` is that match's replacement offset
`(i + ry, j + rx)`. -/
def writesAt (g t : Grid) (startRow stepRows ry rx r c : Nat) : Prop :=
  ∃ i < g.h + 1, ∃ j < g.w + 1,
    i + t.h ≤ g.h ∧ j + t.w ≤ g.w ∧ startRow ≤ i ∧
    (i - startRow) % stepRows = 0 ∧ matchAt g t i j ∧ r = i + ry ∧ c = j + rx

instance (g t : Grid) (startRow stepRows ry rx r c : Nat) :
    Decidable (writesAt g t startRow stepRows ry rx r c) := by
  unfold writesAt; infer_instance

/-- Shallow embedding of `Chart._replace_in`.  If the first searched
row would already be past the last row where the template fits
vertically (`start_row > h - rows`, which also covers a template
taller than the grid), the grid is returned unchanged.  Otherwise all
matches are found against the entry grid (the mask is computed from
`arr` before any write) and the replacement value is written at every
match's replacement offset on a copy of the array. -/
def replaceIn (g t : Grid) (repl : Int) (ry rx startRow stepRows : Nat) : Grid :=
  if g.h < t.h ∨ g.h - t.h < startRow then g
  else
    { h := g.h, w := g.w
      cell := fun r c =>
        if writesAt g t startRow stepRows ry rx r c then repl else g.cell r c }

/-- The set of match corners one `Chart._replace_in` call discovers:
corners `(i, j)` with `i` in the strided row range, the template
fitting inside the grid, matching the entry grid. -/
def foundMatches (g t : Grid) (startRow stepRows : Nat) : Finset (Nat × Nat) :=
  (Finset.range (g.h + 1) ×ˢ Finset.range (g.w + 1)).filter fun p =>
    p.1 + t.h ≤ g.h ∧ p.2 + t.w ≤ g.w ∧ startRow ≤ p.1 ∧
    (p.1 - startRow) % stepRows = 0 ∧ matchAt g t p.1 p.2

/-- Shape-and-contents equality of two grids (`np.array_equal`). -/
def sameGrid (g1 g2 : Grid) : Prop :=
  g1.h = g2.h ∧ g1.w = g2.w ∧ ∀ r < g1.h, ∀ c < g1.w, g1.cell r c = g2.cell r c

instance (g1 g2 : Grid) : Decidable (sameGrid g1 g2) := by
  unfold sameGrid; infer_instance

/-- Number of empty (code `0`) cells in the grid's domain. -/
def emptyCount (g : Grid) : Nat :=
  ((Finset.range g.h ×ˢ Finset.range g.w).filter fun p => g.cell p.1 p.2 = 0).card

/-- Start rows of the two marker-seeding scans in
`Chart._insert_symbol` (`odd_start_row, even_start_row` in the
source): `(0, 1)` when the row count is odd, swapped to `(1, 0)` when
the row count is even. -/
def markerSeedStarts (h : Nat) : Nat × Nat :=
  if h % 2 = 0 then (1, 0) else (0, 1)

/-- Seeding template of step 1.2: `[[NONE, NONE], [NONE, KNIT]]`. -/
def tSeed1 : Grid := Grid.ofList [[0, 0], [0, 1]]

/-- Seeding template of step 1.3: `[[NONE, NONE], [KNIT, NONE]]`. -/
def tSeed2 : Grid := Grid.ofList [[0, 0], [1, 0]]

/-- Propagation template `[[MARKER_1, NONE]]` of step 1.4. -/
def tProp1 : Grid := Grid.ofList [[-101, 0]]

/-- Propagation template `[[NONE, MARKER_2]]` of step 1.4. -/
def tProp2 : Grid := Grid.ofList [[0, -102]]

/-- Bind-off template `[[NONE], [KNIT]]` of step 2.2. -/
def tBO : Grid := Grid.ofList [[0], [1]]

/-- Right-decrease template `[[KNIT, BO]]` of step 2.3. -/
def tK2TOG : Grid := Grid.ofList [[1, 60]]

/-- Left-decrease template `[[BO, KNIT]]` of step 2.4. -/
def tSSK : Grid := Grid.ofList [[60, 1]]

/-- First increase template `[[KNIT, KNIT], [KNIT, NONE]]` of step 2.5. -/
def tM1a : Grid := Grid.ofList [[1, 1], [1, 0]]

/-- Second increase template `[[KNIT, KNIT], [NONE, KNIT]]` of step 2.5. -/
def tM1b : Grid := Grid.ofList [[1, 1], [0, 1]]

/-- Step 1.2 of `Chart._insert_symbol`: stamp `MARKER_1` (`-101`) at
offset `(0, 1)` of each `tSeed1` match, scanning rows
`odd_start_row, odd_start_row + 2, ...`. -/
def seedPass1 (g : Grid) : Grid :=
  replaceIn g tSeed1 (-101) 0 1 (markerSeedStarts g.h).1 2

/-- Step 1.3 of `Chart._insert_symbol`: stamp `MARKER_2` (`-102`) at
offset `(0, 0)` of each `tSeed2` match, scanning rows
`even_start_row, even_start_row + 2, ...`. -/
def seedPass2 (g : Grid) : Grid :=
  replaceIn g tSeed2 (-102) 0 0 (markerSeedStarts g.h).2 2

/-- One iteration of the step 1.4 while-loop body: extend `MARKER_1`
one cell rightward into empty cells, then `MARKER_2` one cell
leftward. -/
def propagateOnce (g : Grid) : Grid :=
  replaceIn (replaceIn g tProp1 (-101) 0 1 0 1) tProp2 (-102) 0 0 0 1

/-- The `while True` propagation loop of step 1.4, with explicit fuel:
run one pass, stop as soon as a pass changes nothing
(`np.array_equal(prev_array, self.array)`).  `insertSymbol` supplies
fuel `emptyCount g + 1`, which the termination theorem proves is
enough to reach the loop's exit condition, so the fuelled recursion
computes the same grid the unbounded source loop stops at. -/
def propagateLoop : Nat → Grid → Grid
  | 0, g => g
  | fuel + 1, g =>
    if sameGrid g (propagateOnce g) then g else propagateLoop fuel (propagateOnce g)

/-- Tail of step 1.4: convert every remaining `MARKER_1` / `MARKER_2`
cell to `KNIT` (`self.array[self.array == marker] = 1`). -/
def collapseMarkers (g : Grid) : Grid :=
  { h := g.h, w := g.w
    cell := fun r c =>
      if g.cell r c = -101 ∨ g.cell r c = -102 then 1 else g.cell r c }

/-- `Chart._insert_row_to_top`: prepend one row filled with `fill`,
shifting all existing rows down by one. -/
def insertRowToTop (g : Grid) (fill : Int) : Grid :=
  { h := g.h + 1, w := g.w
    cell := fun r c => if r = 0 then fill else g.cell (r - 1) c }

/-- Step 2.2 of `Chart._insert_symbol`: the bind-off stamping pass.
The replacement position passed in the source is `(0, 0)`, the top
(empty) cell of the 2×1 template. -/
def bindOffPass (g : Grid) : Grid :=
  replaceIn g tBO 60 0 0 0 1

/-- Shallow embedding of `Chart._insert_symbol`: marker seeding,
marker propagation to a fixed point, marker collapse, top boundary
row, then the bind-off / decrease / increase stamping passes, each a
`Chart._replace_in` call with the template, replacement code,
replacement offset, start row and stride taken from the source. -/
def insertSymbol (g : Grid) : Grid :=
  let s1 := seedPass1 g
  let s2 := seedPass2 s1
  let fixed := propagateLoop (emptyCount s2 + 1) s2
  let collapsed := collapseMarkers fixed
  let topped := insertRowToTop collapsed 0
  let bo := bindOffPass topped
  let dR := replaceIn bo tK2TOG 11 0 1 0 1
  let dL := replaceIn dR tSSK 21 0 0 0 1
  let iL := replaceIn dL tM1a 2 0 0 0 1
  replaceIn iL tM1b 2 0 1 0 1

/-- Shallow embedding of `Chart.symmetrize_rows`.  With column count
`w`, the source computes `center_col_end = w // 2` and
`center_col_start = center_col_end` (even `w`) or `center_col_end + 1`
(odd `w`), then overwrites one half of each row in
`[start_row, end_row)` with the reversed other half:
`result[rows, :cce] = result[rows, ccs:][:, ::-1]` when
`based_on_right` is false (so target column `c < cce` reads source
column `ccs + cce - 1 - c`), and
`result[rows, ccs:] = result[rows, :cce][:, ::-1]` when it is true.
The two halves are disjoint, so reading the pre-call grid is
faithful. -/
def symmetrizeRows (g : Grid) (startRow endRow : Nat) (basedOnRight : Bool) : Grid :=
  let cce := g.w / 2
  let ccs := if g.w % 2 = 0 then cce else cce + 1
  { h := g.h, w := g.w
    cell := fun r c =>
      if basedOnRight then
        if startRow ≤ r ∧ r < endRow ∧ ccs ≤ c ∧ c < g.w then
          g.cell r (cce - 1 - (c - ccs))
        else g.cell r c
      else
        if startRow ≤ r ∧ r < endRow ∧ c < cce then
          g.cell r (ccs + cce - 1 - c)
        else g.cell r c }

/-- Row count of the chart: `int(height / stitch_length)` in
`Chart.from_shape` (floor, since all quantities are positive). -/
def numGridHeight (H sh : ℚ) : Nat := ⌊H / sh⌋₊

/-- Column count of the chart: `int(width / stitch_width)`. -/
def numGridWidth (W sw : ℚ) : Nat := ⌊W / sw⌋₊

/-- Number of `y` samples visited by the fill loop of
`Chart.from_shape`: the length of `np.arange(0, height, stitch_length)`,
i.e. the number of naturals `k` with `k * sh < H`, which equals
`⌈H / sh⌉₊` for `sh > 0`. -/
def sampleRows (H sh : ℚ) : Nat := ⌈H / sh⌉₊

/-- Number of `x` samples visited by the fill loop:
the length of `np.arange(0, width, stitch_width)`. -/
def sampleCols (W sw : ℚ) : Nat := ⌈W / sw⌉₊

/-- The point `(x, y)` lies strictly inside the axis-aligned rectangle
`[0, W] × [0, H]`.  This is `polygon.contains(point)` for a
rectangular outline anchored at the origin: the sampled polygon of a
rectangle is the rectangle itself, `buffer(0)` leaves it unchanged,
and shapely's `contains` tests the open interior. -/
def insideRect (W H x y : ℚ) : Prop :=
  0 < x ∧ x < W ∧ 0 < y ∧ y < H

instance (W H x y : ℚ) : Decidable (insideRect W H x y) := by
  unfold insideRect; infer_instance

/-- Horizontal stitch-center coordinate
`x_coordinate + stitch_width / 2` for column index `c`. -/
def stitchCenterX (sw : ℚ) (c : Nat) : ℚ := c * sw + sw / 2

/-- Vertical stitch-center coordinate
`y_coordinate + stitch_length / 2` for row index `r`. -/
def stitchCenterY (sh : ℚ) (r : Nat) : ℚ := r * sh + sh / 2

/-- The fill loop of `Chart.from_shape` raises `IndexError` for a
rectangular outline: some sampled stitch center lies inside the
rectangle while its `(y_index, x_index)` falls outside the allocated
`(num_grid_height, num_grid_width)` array (the assignment
`array[y_index, x_index] = 1` is then out of bounds; the loop ranges
over `np.arange`, whose length can exceed the floor-sized array). -/
def rasterCrash (W H sw sh : ℚ) : Prop :=
  ∃ r < sampleRows H sh, ∃ c < sampleCols W sw,
    insideRect W H (stitchCenterX sw c) (stitchCenterY sh r) ∧
    (numGridHeight H sh ≤ r ∨ numGridWidth W sw ≤ c)

instance (W H sw sh : ℚ) : Decidable (rasterCrash W H sw sh) := by
  unfold rasterCrash; infer_instance

/-- The occupancy grid the fill loop produces when it does not crash:
cell `(r, c)` is `KNIT` (`1`) exactly when the stitch center lies
strictly inside the rectangle, else it stays `0`. -/
def rasterGrid (W H sw sh : ℚ) : Grid :=
  { h := numGridHeight H sh
    w := numGridWidth W sw
    cell := fun r c =>
      if r < numGridHeight H sh ∧ c < numGridWidth W sw ∧
          insideRect W H (stitchCenterX sw c) (stitchCenterY sh r) then 1
      else 0 }

/-- The rasterization step of `Chart.from_shape`, specialized to a
closed rectangular outline `[0, W] × [0, H]` (so the bounding box is
`W × H` and containment is `insideRect`): either the fill loop raises
(`Except.error`) or it returns the occupancy grid. -/
def rasterizeRect (W H sw sh : ℚ) : Except Unit Grid :=
  if rasterCrash W H sw sh then Except.error () else Except.ok (rasterGrid W H sw sh)

/-- Shallow embedding of `Chart.from_shape` for a rectangular outline.
`polygonOk` models the truthiness of the repaired polygon after
sampling (`False` when the path is not closed, has fewer than 3
sampled points, `Polygon(...).buffer(0)` raises, or the repaired
polygon is empty): in that case the zero array created before the
polygon step is returned as the chart, with no symbol insertion.
Otherwise the fill loop runs (possibly raising) and `_insert_symbol`
transforms the occupancy grid. -/
def fromShapeRect (W H sw sh : ℚ) (polygonOk : Bool) : Except Unit Grid :=
  if polygonOk then
    match rasterizeRect W H sw sh with
    | Except.error e => Except.error e
    | Except.ok g => Except.ok (insertSymbol g)
  else
    Except.ok { h := numGridHeight H sh, w := numGridWidth W sw, cell := fun _ _ => 0 }

/-- The grid contains no transient marker code anywhere. -/
def markerFree (g : Grid) : Prop :=
  ∀ r c, g.cell r c ≠ -101 ∧ g.cell r c ≠ -102

/-! ## Basic lemmas about the pattern-replace primitive -/

theorem replaceIn_h (g t : Grid) (repl : Int) (ry rx sr st : Nat) :
    (replaceIn g t repl ry rx sr st).h = g.h := by
  unfold replaceIn; split <;> rfl

theorem replaceIn_w (g t : Grid) (repl : Int) (ry rx sr st : Nat) :
    (replaceIn g t repl ry rx sr st).w = g.w := by
  unfold replaceIn; split <;> rfl

theorem replaceIn_cell_pos (g t : Grid) (repl : Int) (ry rx sr st r c : Nat)
    (hw : writesAt g t sr st ry rx r c) :
    (replaceIn g t repl ry rx sr st).cell r c = repl := by
  have hguard : ¬ (g.h < t.h ∨ g.h - t.h < sr) := by
    obtain ⟨i, hi, j, hj, hfh, hfw, hsr, hstep, hm, hr, hc⟩ := hw
    push_neg
    omega
  unfold replaceIn
  rw [if_neg hguard]
  exact if_pos hw

theorem replaceIn_cell_neg (g t : Grid) (repl : Int) (ry rx sr st r c : Nat)
    (hw : ¬ writesAt g t sr st ry rx r c) :
    (replaceIn g t repl ry rx sr st).cell r c = g.cell r c := by
  unfold replaceIn
  split
  · rfl
  · exact if_neg hw

theorem replaceIn_cell_cases (g t : Grid) (repl : Int) (ry rx sr st r c : Nat) :
    (replaceIn g t repl ry rx sr st).cell r c = repl ∨
    (replaceIn g t repl ry rx sr st).cell r c = g.cell r c := by
  by_cases hw : writesAt g t sr st ry rx r c
  · exact Or.inl (replaceIn_cell_pos g t repl ry rx sr st r c hw)
  · exact Or.inr (replaceIn_cell_neg g t repl ry rx sr st r c hw)

theorem replaceIn_change (g t : Grid) (repl : Int) (ry rx sr st r c : Nat)
    (hry : ry < t.h) (hrx : rx < t.w)
    (hne : (replaceIn g t repl ry rx sr st).cell r c ≠ g.cell r c) :
    g.cell r c = t.cell ry rx ∧ (replaceIn g t repl ry rx sr st).cell r c = repl := by
  by_cases hw : writesAt g t sr st ry rx r c
  · refine ⟨?_, replaceIn_cell_pos g t repl ry rx sr st r c hw⟩
    obtain ⟨i, hi, j, hj, hfh, hfw, hsr, hstep, hm, hr, hc⟩ := hw
    subst hr; subst hc
    exact hm ry hry rx hrx
  · exact absurd (replaceIn_cell_neg g t repl ry rx sr st r c hw) hne

/-! ## Shape preservation and propagation lemmas -/

theorem propagateOnce_h (g : Grid) : (propagateOnce g).h = g.h := by
  unfold propagateOnce; rw [replaceIn_h, replaceIn_h]

theorem propagateOnce_w (g : Grid) : (propagateOnce g).w = g.w := by
  unfold propagateOnce; rw [replaceIn_w, replaceIn_w]

theorem propagateLoop_h (fuel : Nat) : ∀ g : Grid, (propagateLoop fuel g).h = g.h := by
  induction fuel with
  | zero => intro g; rfl
  | succ n ih =>
    intro g
    unfold propagateLoop
    split
    · rfl
    · rw [ih (propagateOnce g), propagateOnce_h]

theorem propagateLoop_w (fuel : Nat) : ∀ g : Grid, (propagateLoop fuel g).w = g.w := by
  induction fuel with
  | zero => intro g; rfl
  | succ n ih =>
    intro g
    unfold propagateLoop
    split
    · rfl
    · rw [ih (propagateOnce g), propagateOnce_w]

theorem propagateOnce_change (g : Grid) (r c : Nat)
    (hne : (propagateOnce g).cell r c ≠ g.cell r c) :
    g.cell r c = 0 ∧ (propagateOnce g).cell r c ≠ 0 := by
  have e : propagateOnce g
      = replaceIn (replaceIn g tProp1 (-101) 0 1 0 1) tProp2 (-102) 0 0 0 1 := rfl
  rw [e] at hne ⊢
  have hh1 : (0 : Nat) < tProp1.h := by decide
  have hw1 : (1 : Nat) < tProp1.w := by decide
  have hh2 : (0 : Nat) < tProp2.h := by decide
  have hw2 : (0 : Nat) < tProp2.w := by decide
  by_cases h1 : (replaceIn g tProp1 (-101) 0 1 0 1).cell r c = g.cell r c
  · have h2 : (replaceIn (replaceIn g tProp1 (-101) 0 1 0 1) tProp2 (-102) 0 0 0 1).cell r c
        ≠ (replaceIn g tProp1 (-101) 0 1 0 1).cell r c := by
      rw [h1]; exact hne
    have hc := replaceIn_change (replaceIn g tProp1 (-101) 0 1 0 1) tProp2
      (-102) 0 0 0 1 r c hh2 hw2 h2
    constructor
    · rw [← h1, hc.1]; decide
    · rw [hc.2]; decide
  · have hc := replaceIn_change g tProp1 (-101) 0 1 0 1 r c hh1 hw1 h1
    constructor
    · rw [hc.1]; decide
    · by_cases h2 : (replaceIn (replaceIn g tProp1 (-101) 0 1 0 1) tProp2
          (-102) 0 0 0 1).cell r c = (replaceIn g tProp1 (-101) 0 1 0 1).cell r c
      · rw [h2, hc.2]; decide
      · have hc2 := replaceIn_change (replaceIn g tProp1 (-101) 0 1 0 1) tProp2
          (-102) 0 0 0 1 r c hh2 hw2 h2
        rw [hc2.2]; decide

theorem propagateOnce_emptyCount (g : Grid)
    (hne : ¬ sameGrid g (propagateOnce g)) :
    emptyCount (propagateOnce g) < emptyCount g := by
  have hh : (propagateOnce g).h = g.h := propagateOnce_h g
  have hw : (propagateOnce g).w = g.w := propagateOnce_w g
  have hdiff : ∃ r, r < g.h ∧ ∃ c, c < g.w ∧ g.cell r c ≠ (propagateOnce g).cell r c := by
    by_contra hall
    push_neg at hall
    exact hne ⟨hh.symm, hw.symm, hall⟩
  obtain ⟨r0, hr0, c0, hc0, hne0⟩ := hdiff
  have hz := propagateOnce_change g r0 c0 (Ne.symm hne0)
  unfold emptyCount
  rw [hh, hw]
  apply Finset.card_lt_card
  rw [Finset.ssubset_def]
  constructor
  · intro p hp
    rw [Finset.mem_filter] at hp ⊢
    refine ⟨hp.1, ?_⟩
    by_cases hch : (propagateOnce g).cell p.1 p.2 = g.cell p.1 p.2
    · rw [← hch]; exact hp.2
    · exact absurd hp.2 (propagateOnce_change g p.1 p.2 hch).2
  · intro hsub
    have hmem : (r0, c0) ∈ (Finset.range g.h ×ˢ Finset.range g.w).filter
        (fun p => g.cell p.1 p.2 = 0) := by
      rw [Finset.mem_filter, Finset.mem_product, Finset.mem_range, Finset.mem_range]
      exact ⟨⟨hr0, hc0⟩, hz.1⟩
    have hmem2 := hsub hmem
    rw [Finset.mem_filter] at hmem2
    exact hz.2 hmem2.2

theorem propagateLoop_fix (fuel : Nat) : ∀ g : Grid, emptyCount g < fuel →
    sameGrid (propagateLoop fuel g) (propagateOnce (propagateLoop fuel g)) := by
  induction fuel with
  | zero => intro g h; exact absurd h (Nat.not_lt_zero _)
  | succ n ih =>
    intro g h
    unfold propagateLoop
    split
    · assumption
    · rename_i hneq
      exact ih (propagateOnce g) (by have := propagateOnce_emptyCount g hneq; omega)

/-! ## Shape and marker lemmas for the symbol-insertion passes -/

theorem seedPass1_h (g : Grid) : (seedPass1 g).h = g.h :=
  replaceIn_h g tSeed1 (-101) 0 1 (markerSeedStarts g.h).1 2

theorem seedPass2_h (g : Grid) : (seedPass2 g).h = g.h :=
  replaceIn_h g tSeed2 (-102) 0 0 (markerSeedStarts g.h).2 2

theorem bindOffPass_h (g : Grid) : (bindOffPass g).h = g.h :=
  replaceIn_h g tBO 60 0 0 0 1

theorem collapseMarkers_h (g : Grid) : (collapseMarkers g).h = g.h := rfl

theorem insertRowToTop_h (g : Grid) (fill : Int) : (insertRowToTop g fill).h = g.h + 1 := rfl

theorem insertSymbol_h (g : Grid) : (insertSymbol g).h = g.h + 1 := by
  simp only [insertSymbol]
  rw [replaceIn_h, replaceIn_h, replaceIn_h, replaceIn_h, bindOffPass_h, insertRowToTop_h,
    collapseMarkers_h, propagateLoop_h, seedPass2_h, seedPass1_h]

theorem markerFree_replaceIn (g t : Grid) (repl : Int) (ry rx sr st : Nat)
    (hg : markerFree g) (h1 : repl ≠ -101) (h2 : repl ≠ -102) :
    markerFree (replaceIn g t repl ry rx sr st) := by
  intro r c
  rcases replaceIn_cell_cases g t repl ry rx sr st r c with h | h <;> rw [h]
  · exact ⟨h1, h2⟩
  · exact hg r c

theorem markerFree_collapseMarkers (g : Grid) : markerFree (collapseMarkers g) := by
  intro r c
  unfold collapseMarkers
  dsimp only
  split
  · exact ⟨by decide, by decide⟩
  · rename_i h
    push_neg at h
    exact h

theorem markerFree_insertRowToTop (g : Grid) (hg : markerFree g) :
    markerFree (insertRowToTop g 0) := by
  intro r c
  unfold insertRowToTop
  dsimp only
  split
  · exact ⟨by decide, by decide⟩
  · exact hg (r - 1) c

theorem markerFree_insertSymbol (g : Grid) : markerFree (insertSymbol g) := by
  show markerFree (replaceIn (replaceIn (replaceIn (replaceIn (bindOffPass
    (insertRowToTop (collapseMarkers _) 0)) tK2TOG 11 0 1 0 1)
    tSSK 21 0 0 0 1) tM1a 2 0 0 0 1) tM1b 2 0 1 0 1)
  refine markerFree_replaceIn _ _ _ _ _ _ _ ?_ (by decide) (by decide)
  refine markerFree_replaceIn _ _ _ _ _ _ _ ?_ (by decide) (by decide)
  refine markerFree_replaceIn _ _ _ _ _ _ _ ?_ (by decide) (by decide)
  unfold bindOffPass
  refine markerFree_replaceIn _ _ _ _ _ _ _ ?_ (by decide) (by decide)
  refine markerFree_replaceIn _ _ _ _ _ _ _ ?_ (by decide) (by decide)
  exact markerFree_insertRowToTop _ (markerFree_collapseMarkers _)

theorem writesAt_iff_foundMatches (g t : Grid) (sr st ry rx r c : Nat) :
    writesAt g t sr st ry rx r c ↔
    ∃ p ∈ foundMatches g t sr st, r = p.1 + ry ∧ c = p.2 + rx := by
  constructor
  · rintro ⟨i, hi, j, hj, hf1, hf2, hsr, hstep, hm, hr, hc⟩
    refine ⟨(i, j), ?_, hr, hc⟩
    simp only [foundMatches, Finset.mem_filter, Finset.mem_product, Finset.mem_range]
    exact ⟨⟨hi, hj⟩, hf1, hf2, hsr, hstep, hm⟩
  · rintro ⟨⟨i, j⟩, hp, hr, hc⟩
    simp only [foundMatches, Finset.mem_filter, Finset.mem_product, Finset.mem_range] at hp
    obtain ⟨⟨hi, hj⟩, hf1, hf2, hsr, hstep, hm⟩ := hp
    exact ⟨i, hi, j, hj, hf1, hf2, hsr, hstep, hm, hr, hc⟩

/-! ## Claim theorems -/

/-- C1 counterexample: on the 2-row, 1-column grid `[[0], [1]]` the
bind-off template `[[empty], [knit]]` matches at `(0, 0)`, yet after
the bind-off stamping pass the bottom cell of the match (the knit
cell) is still `1`, not `60`: the pass stamps `60` into the top
(empty) cell, because the source passes `replacement_position=(0,0)`,
not `(1,0)`. -/
theorem bind_off_bottom_cell_cex :
    matchAt (Grid.ofList [[0], [1]]) tBO 0 0 ∧
    (bindOffPass (Grid.ofList [[0], [1]])).cell 1 0 ≠ 60 ∧
    (bindOffPass (Grid.ofList [[0], [1]])).cell 1 0 = 1 ∧
    (bindOffPass (Grid.ofList [[0], [1]])).cell 0 0 = 60 := by
  refine ⟨by decide, by decide, by decide, by decide⟩

/-- C1 (amended): in the bind-off stamping pass, for every grid
position where the 2×1 vertical template `[[empty], [knit]]` matches,
the bind-off code `60` is stamped into the top cell of the match (the
empty cell, template offset `(0, 0)`), and the bottom (knit) cell of
the match is left unchanged. -/
theorem bind_off_stamps_top_cell (g : Grid) (i j : Nat)
    (hi : i + 2 ≤ g.h) (hj : j + 1 ≤ g.w) (hm : matchAt g tBO i j) :
    (bindOffPass g).cell i j = 60 ∧
    (bindOffPass g).cell (i + 1) j = g.cell (i + 1) j := by
  constructor
  · exact replaceIn_cell_pos g tBO 60 0 0 0 1 i j
      ⟨i, by omega, j, by omega, hi, hj, by omega, by omega, hm, rfl, rfl⟩
  · apply replaceIn_cell_neg
    rintro ⟨i2, hlt, j2, hlt2, hf1, hf2, hsr, hstep, hm2, hr2, hc2⟩
    have hi2 : i2 = i + 1 := by omega
    have hj2 : j2 = j := by omega
    subst hi2; subst hj2
    have h0 := hm2 0 (by decide) 0 (by decide)
    have h1 := hm 1 (by decide) 0 (by decide)
    have e0 : tBO.cell 0 0 = 0 := rfl
    have e1 : tBO.cell 1 0 = 1 := rfl
    rw [e0] at h0
    rw [e1] at h1
    simp only [Nat.add_zero] at h0 h1
    omega

/-- C1 witness: the amended bind-off behaviour evaluated on the
concrete grid `[[0], [1]]`. -/
theorem bind_off_stamps_top_cell_witness :
    (0 + 2 ≤ (Grid.ofList [[0], [1]]).h) ∧
    ((bindOffPass (Grid.ofList [[0], [1]])).cell 0 0 = 60 ∧
     (bindOffPass (Grid.ofList [[0], [1]])).cell (0 + 1) 0
       = (Grid.ofList [[0], [1]]).cell (0 + 1) 0) :=
  ⟨by decide,
   bind_off_stamps_top_cell (Grid.ofList [[0], [1]]) 0 0 (by decide) (by decide) (by decide)⟩

/-- C2: one call of `Chart._replace_in` preserves the grid's shape,
writes the replacement value exactly at the replacement offset of
every match found against the entry grid, leaves every other cell
unchanged, and — because the offset map is a translation, hence
injective — replaces exactly `N` cells when the call finds `N`
matches, independent of any discovery order. -/
theorem replace_in_snapshot_semantics (g t : Grid) (repl : Int) (ry rx sr st : Nat) :
    (replaceIn g t repl ry rx sr st).h = g.h ∧
    (replaceIn g t repl ry rx sr st).w = g.w ∧
    (∀ p ∈ foundMatches g t sr st,
      (replaceIn g t repl ry rx sr st).cell (p.1 + ry) (p.2 + rx) = repl) ∧
    (∀ r c, (r, c) ∉ Finset.image (fun p => (p.1 + ry, p.2 + rx)) (foundMatches g t sr st) →
      (replaceIn g t repl ry rx sr st).cell r c = g.cell r c) ∧
    (Finset.image (fun p => (p.1 + ry, p.2 + rx)) (foundMatches g t sr st)).card
      = (foundMatches g t sr st).card := by
  refine ⟨replaceIn_h g t repl ry rx sr st, replaceIn_w g t repl ry rx sr st, ?_, ?_, ?_⟩
  · intro p hp
    apply replaceIn_cell_pos
    rw [writesAt_iff_foundMatches]
    exact ⟨p, hp, rfl, rfl⟩
  · intro r c hnot
    apply replaceIn_cell_neg
    rw [writesAt_iff_foundMatches]
    rintro ⟨p, hp, hr, hc⟩
    exact hnot (Finset.mem_image.mpr ⟨p, hp, by rw [hr, hc]⟩)
  · apply Finset.card_image_of_injective
    rintro ⟨p1, p2⟩ ⟨q1, q2⟩ hpq
    simp only [Prod.mk.injEq] at hpq ⊢
    omega

/-- C2 witness: the snapshot semantics evaluated on a concrete 2×2
grid with the 1×1 knit template. -/
theorem replace_in_snapshot_semantics_witness :
    ((0 : Nat), (0 : Nat)) ∈ foundMatches (Grid.ofList [[1, 0], [0, 1]]) (Grid.ofList [[1]]) 0 1 ∧
    (replaceIn (Grid.ofList [[1, 0], [0, 1]]) (Grid.ofList [[1]]) 5 0 0 0 1).cell (0 + 0) (0 + 0)
      = 5 :=
  ⟨by decide,
   (replace_in_snapshot_semantics (Grid.ofList [[1, 0], [0, 1]])
     (Grid.ofList [[1]]) 5 0 0 0 1).2.2.1 (0, 0) (by decide)⟩

/-- C3: the marker-collapse step converts every transient marker
(`-101` / `-102`) to knit (`1`) and leaves no marker behind, and the
finished chart produced by `Chart._insert_symbol` (hence the chart
`Chart.from_shape` returns) contains no transient marker code in any
cell. -/
theorem no_transient_markers :
    (∀ (g : Grid) (r c : Nat),
      ((g.cell r c = -101 ∨ g.cell r c = -102) → (collapseMarkers g).cell r c = 1) ∧
      (collapseMarkers g).cell r c ≠ -101 ∧ (collapseMarkers g).cell r c ≠ -102) ∧
    (∀ (g : Grid) (r c : Nat),
      (insertSymbol g).cell r c ≠ -101 ∧ (insertSymbol g).cell r c ≠ -102) := by
  constructor
  · intro g r c
    refine ⟨?_, markerFree_collapseMarkers g r c⟩
    intro h
    unfold collapseMarkers
    dsimp only
    rw [if_pos h]
  · intro g r c
    exact markerFree_insertSymbol g r c

/-- C3 witness: a seeded marker cell is converted to knit on a
concrete one-cell grid. -/
theorem no_transient_markers_witness :
    ((Grid.ofList [[-101]]).cell 0 0 = -101 ∨ (Grid.ofList [[-101]]).cell 0 0 = -102) ∧
    (collapseMarkers (Grid.ofList [[-101]])).cell 0 0 = 1 :=
  ⟨by decide, (no_transient_markers.1 (Grid.ofList [[-101]]) 0 0).1 (by decide)⟩

/-- C4: every propagation pass that changes the grid strictly
decreases the number of empty cells, so the `while True` loop of
`Chart._insert_symbol` terminates within `emptyCount g + 1`
iterations, and the grid it stops at is a fixed point: one more pass
leaves it identical. -/
theorem propagation_terminates :
    (∀ g : Grid, ¬ sameGrid g (propagateOnce g) →
      emptyCount (propagateOnce g) < emptyCount g) ∧
    (∀ g : Grid,
      sameGrid (propagateLoop (emptyCount g + 1) g)
        (propagateOnce (propagateLoop (emptyCount g + 1) g))) :=
  ⟨propagateOnce_emptyCount,
   fun g => propagateLoop_fix (emptyCount g + 1) g (Nat.lt_succ_self _)⟩

/-- C4 witness: the strict decrease evaluated on the concrete grid
`[[-101, 0]]`, which one pass changes to `[[-101, -101]]`. -/
theorem propagation_terminates_witness :
    ¬ sameGrid (Grid.ofList [[-101, 0]]) (propagateOnce (Grid.ofList [[-101, 0]])) ∧
    emptyCount (propagateOnce (Grid.ofList [[-101, 0]])) < emptyCount (Grid.ofList [[-101, 0]]) :=
  ⟨by decide, propagation_terminates.1 (Grid.ofList [[-101, 0]]) (by decide)⟩

/-- C5: the two seeding scans start at rows `(0, 1)` when the row
count is odd and `(1, 0)` when it is even, the two start rows have
different parities, and (both scans having stride 2) every cell the
first seeding pass changes lies on a row of the first start row's
parity while every cell the second seeding pass changes lies on a row
of the second start row's parity. -/
theorem seed_parity_selection (g : Grid) :
    (g.h % 2 = 1 → markerSeedStarts g.h = (0, 1)) ∧
    (g.h % 2 = 0 → markerSeedStarts g.h = (1, 0)) ∧
    (markerSeedStarts g.h).1 % 2 ≠ (markerSeedStarts g.h).2 % 2 ∧
    (∀ r c, (seedPass1 g).cell r c ≠ g.cell r c →
      r % 2 = (markerSeedStarts g.h).1 % 2) ∧
    (∀ r c, (seedPass2 (seedPass1 g)).cell r c ≠ (seedPass1 g).cell r c →
      r % 2 = (markerSeedStarts g.h).2 % 2) := by
  refine ⟨?_, ?_, ?_, ?_, ?_⟩
  · intro h
    unfold markerSeedStarts
    rw [if_neg (by omega)]
  · intro h
    unfold markerSeedStarts
    rw [if_pos h]
  · unfold markerSeedStarts
    split <;> decide
  · intro r c hne
    by_cases hw : writesAt g tSeed1 (markerSeedStarts g.h).1 2 0 1 r c
    · obtain ⟨i, _, j, _, _, _, hsr, hstep, _, hr, _⟩ := hw
      omega
    · exact absurd (replaceIn_cell_neg g tSeed1 (-101) 0 1 (markerSeedStarts g.h).1 2 r c hw) hne
  · intro r c hne
    have hh : (seedPass1 g).h = g.h := seedPass1_h g
    by_cases hw : writesAt (seedPass1 g) tSeed2 (markerSeedStarts (seedPass1 g).h).2 2 0 0 r c
    · obtain ⟨i, _, j, _, _, _, hsr, hstep, _, hr, _⟩ := hw
      rw [hh] at hsr hstep
      omega
    · exact absurd
        (replaceIn_cell_neg (seedPass1 g) tSeed2 (-102) 0 0
          (markerSeedStarts (seedPass1 g).h).2 2 r c hw) hne

/-- C5 witness: on a 3-row grid (odd row count) the first seeding
pass changes cell `(0, 1)`, and row 0 has the first start row's
parity. -/
theorem seed_parity_selection_witness :
    ((seedPass1 (Grid.ofList [[0, 0], [0, 1], [1, 1]])).cell 0 1
      ≠ (Grid.ofList [[0, 0], [0, 1], [1, 1]]).cell 0 1) ∧
    0 % 2 = (markerSeedStarts (Grid.ofList [[0, 0], [0, 1], [1, 1]]).h).1 % 2 :=
  ⟨by decide,
   (seed_parity_selection (Grid.ofList [[0, 0], [0, 1], [1, 1]])).2.2.2.1 0 1 (by decide)⟩

/-- C8 counterexample: on the 1-row grid `[[1]]` with the 2-row
template `[[0], [1]]` (template taller than the grid),
`Chart._replace_in` silently returns the grid unchanged — no error is
signalled, contradicting the fail-fast reading. -/
theorem tall_template_cex :
    replaceIn (Grid.ofList [[1]]) (Grid.ofList [[0], [1]]) 60 0 0 0 1 = Grid.ofList [[1]] := by
  unfold replaceIn
  rw [if_pos (Or.inl (by decide))]

/-- C8 (amended): when `Chart._replace_in` is called with a template
whose row count exceeds the grid's row count, the call is a silent
no-op returning the grid unchanged (the same early-return path as a
`start_row` beyond the grid), not a signalled error. -/
theorem tall_template_noop (g t : Grid) (repl : Int) (ry rx sr st : Nat)
    (h : g.h < t.h) : replaceIn g t repl ry rx sr st = g := by
  unfold replaceIn
  rw [if_pos (Or.inl h)]

/-- C8 witness: the silent no-op evaluated on the same concrete
shapes with a different replacement value. -/
theorem tall_template_noop_witness :
    (Grid.ofList [[1]]).h < (Grid.ofList [[0], [1]]).h ∧
    replaceIn (Grid.ofList [[1]]) (Grid.ofList [[0], [1]]) 7 0 0 0 1 = Grid.ofList [[1]] :=
  ⟨by decide, tall_template_noop (Grid.ofList [[1]]) (Grid.ofList [[0], [1]]) 7 0 0 0 1 (by decide)⟩

/-- C9: after `Chart.symmetrize_rows` with `based_on_right=False`,
every row in `[start_row, end_row)` is mirror-symmetric about the
vertical centre — with an even column count `w`, columns `w/2 + k`
and `w/2 - 1 - k` are equal for all `k < w/2`; with an odd column
count the centre column `w/2` is unchanged and columns equidistant
from it are equal — and rows outside the range are unchanged. -/
theorem symmetrize_rows_mirror (g : Grid) (sr er : Nat) :
    (∀ r, sr ≤ r → r < er →
      ((g.w % 2 = 0 → ∀ k, k < g.w / 2 →
        (symmetrizeRows g sr er false).cell r (g.w / 2 + k)
          = (symmetrizeRows g sr er false).cell r (g.w / 2 - 1 - k)) ∧
       (g.w % 2 = 1 →
        ((symmetrizeRows g sr er false).cell r (g.w / 2) = g.cell r (g.w / 2) ∧
         ∀ k, 1 ≤ k → k ≤ g.w / 2 →
           (symmetrizeRows g sr er false).cell r (g.w / 2 + k)
             = (symmetrizeRows g sr er false).cell r (g.w / 2 - k))))) ∧
    (∀ r c, r < sr ∨ er ≤ r →
      (symmetrizeRows g sr er false).cell r c = g.cell r c) := by
  have hcell : ∀ r c, (symmetrizeRows g sr er false).cell r c
      = if sr ≤ r ∧ r < er ∧ c < g.w / 2 then
          g.cell r ((if g.w % 2 = 0 then g.w / 2 else g.w / 2 + 1) + g.w / 2 - 1 - c)
        else g.cell r c := fun r c => rfl
  constructor
  · intro r hsr her
    constructor
    · intro hw0 k hk
      rw [hcell, hcell, if_neg (show ¬ (sr ≤ r ∧ r < er ∧ g.w / 2 + k < g.w / 2) by omega),
        if_pos (show sr ≤ r ∧ r < er ∧ g.w / 2 - 1 - k < g.w / 2 by omega),
        if_pos hw0]
      exact congrArg (g.cell r) (by omega)
    · intro hw1
      constructor
      · rw [hcell, if_neg (show ¬ (sr ≤ r ∧ r < er ∧ g.w / 2 < g.w / 2) by omega)]
      · intro k hk1 hk2
        rw [hcell, hcell, if_neg (show ¬ (sr ≤ r ∧ r < er ∧ g.w / 2 + k < g.w / 2) by omega),
          if_pos (show sr ≤ r ∧ r < er ∧ g.w / 2 - k < g.w / 2 by omega),
          if_neg (show ¬ g.w % 2 = 0 by omega)]
        exact congrArg (g.cell r) (by omega)
  · intro r c hout
    rw [hcell, if_neg (show ¬ (sr ≤ r ∧ r < er ∧ c < g.w / 2) by omega)]

/-- C9 witness: the odd-column-count mirror evaluated on the concrete
one-row grid `[[1, 2, 3]]`. -/
theorem symmetrize_rows_mirror_witness :
    (Grid.ofList [[1, 2, 3]]).w % 2 = 1 ∧
    (symmetrizeRows (Grid.ofList [[1, 2, 3]]) 0 1 false).cell 0
        ((Grid.ofList [[1, 2, 3]]).w / 2 + 1)
      = (symmetrizeRows (Grid.ofList [[1, 2, 3]]) 0 1 false).cell 0
        ((Grid.ofList [[1, 2, 3]]).w / 2 - 1) :=
  ⟨by decide,
   (((symmetrize_rows_mirror (Grid.ofList [[1, 2, 3]]) 0 1).1 0 (by decide) (by decide)).2
     (by decide)).2 1 (by decide) (by decide)⟩

/-- C6 counterexample: for the rectangle `W = 40, H = 26` with
stitches `sw = sh = 10`, the sampled row index `2` (centre `y = 25`,
strictly inside the rectangle) falls outside the
`floor`-sized array (`num_grid_height = 2`), so the fill loop of
`Chart.from_shape` raises instead of producing the claimed
`(2, 4)` all-knit grid. -/
theorem raster_nonaligned_cex : rasterizeRect 40 26 10 10 = Except.error () := by
  have e1 : sampleRows 26 10 = 3 := by
    unfold sampleRows; rw [Nat.ceil_eq_iff (by norm_num)]; norm_num
  have e2 : sampleCols 40 10 = 4 := by
    unfold sampleCols; rw [Nat.ceil_eq_iff (by norm_num)]; norm_num
  have e3 : numGridHeight 26 10 = 2 := by
    unfold numGridHeight; rw [Nat.floor_eq_iff (by norm_num)]; norm_num
  have h : rasterCrash 40 26 10 10 := by
    refine ⟨2, by rw [e1]; norm_num, 0, by rw [e2]; norm_num, ?_, Or.inl (by rw [e3])⟩
    unfold insideRect stitchCenterX stitchCenterY
    push_cast
    norm_num
  unfold rasterizeRect
  rw [if_pos h]

/-- C6 (amended): for a rectangular outline whose width and height
are exact stitch multiples `W = m * sw`, `H = n * sh` (the
grid-alignment invariant the dimension model enforces), the
rasterization step of `Chart.from_shape` succeeds, the occupancy grid
has shape exactly `(n, m) = (floor(H/sh), floor(W/sw))`, and every
cell is knit (`1`) because each stitch centre lies strictly inside
the rectangle. -/
theorem raster_aligned_rect (m n : Nat) (sw sh : ℚ) (hsw : 0 < sw) (hsh : 0 < sh) :
    rasterizeRect (m * sw) (n * sh) sw sh
      = Except.ok (rasterGrid (m * sw) (n * sh) sw sh) ∧
    (rasterGrid (m * sw) (n * sh) sw sh).h = n ∧
    (rasterGrid (m * sw) (n * sh) sw sh).w = m ∧
    (∀ r < n, ∀ c < m, (rasterGrid (m * sw) (n * sh) sw sh).cell r c = 1) := by
  have hH : ((n : ℚ) * sh) / sh = (n : ℚ) := mul_div_cancel_right₀ _ (ne_of_gt hsh)
  have hW : ((m : ℚ) * sw) / sw = (m : ℚ) := mul_div_cancel_right₀ _ (ne_of_gt hsw)
  have hfh : numGridHeight ((n : ℚ) * sh) sh = n := by
    unfold numGridHeight; rw [hH, Nat.floor_natCast]
  have hfw : numGridWidth ((m : ℚ) * sw) sw = m := by
    unfold numGridWidth; rw [hW, Nat.floor_natCast]
  have hch : sampleRows ((n : ℚ) * sh) sh = n := by
    unfold sampleRows; rw [hH, Nat.ceil_natCast]
  have hcw : sampleCols ((m : ℚ) * sw) sw = m := by
    unfold sampleCols; rw [hW, Nat.ceil_natCast]
  have hnocrash : ¬ rasterCrash ((m : ℚ) * sw) ((n : ℚ) * sh) sw sh := by
    rintro ⟨r, hr, c, hc, _, hor⟩
    rw [hch] at hr
    rw [hcw] at hc
    rw [hfh, hfw] at hor
    omega
  refine ⟨?_, hfh, hfw, ?_⟩
  · unfold rasterizeRect; rw [if_neg hnocrash]
  · intro r hr c hc
    have hin : insideRect ((m : ℚ) * sw) ((n : ℚ) * sh)
        (stitchCenterX sw c) (stitchCenterY sh r) := by
      unfold insideRect stitchCenterX stitchCenterY
      have h1 : (0 : ℚ) ≤ (c : ℚ) * sw := mul_nonneg (Nat.cast_nonneg c) (le_of_lt hsw)
      have h2 : (0 : ℚ) < sw / 2 := half_pos hsw
      have h3 : (0 : ℚ) ≤ (r : ℚ) * sh := mul_nonneg (Nat.cast_nonneg r) (le_of_lt hsh)
      have h4 : (0 : ℚ) < sh / 2 := half_pos hsh
      have hcm : ((c : ℚ) + 1) ≤ (m : ℚ) := by exact_mod_cast Nat.succ_le_of_lt hc
      have hrn : ((r : ℚ) + 1) ≤ (n : ℚ) := by exact_mod_cast Nat.succ_le_of_lt hr
      have h5 : ((c : ℚ) + 1) * sw ≤ (m : ℚ) * sw :=
        mul_le_mul_of_nonneg_right hcm (le_of_lt hsw)
      have h6 : ((r : ℚ) + 1) * sh ≤ (n : ℚ) * sh :=
        mul_le_mul_of_nonneg_right hrn (le_of_lt hsh)
      have h7 : ((c : ℚ) + 1) * sw = (c : ℚ) * sw + sw := by ring
      have h8 : ((r : ℚ) + 1) * sh = (r : ℚ) * sh + sh := by ring
      exact ⟨by linarith, by linarith, by linarith, by linarith⟩
    unfold rasterGrid
    dsimp only
    rw [if_pos ⟨by rw [hfh]; exact hr, by rw [hfw]; exact hc, hin⟩]

/-- C6 witness: the aligned-rectangle behaviour evaluated at
`m = 4, n = 2, sw = sh = 10`. -/
theorem raster_aligned_rect_witness :
    (0 : ℚ) < 10 ∧
    (rasterGrid (((4 : Nat) : ℚ) * 10) (((2 : Nat) : ℚ) * 10) 10 10).h = 2 :=
  ⟨by norm_num, (raster_aligned_rect 4 2 10 10 (by norm_num) (by norm_num)).2.1⟩

/-- C7: when the sampled point list fails to produce a valid polygon,
`Chart.from_shape` does not raise: it returns (as `Except.ok`) a
chart of the computed size `(floor(H/sh), floor(W/sw))` whose cells
are all the empty code `0`, so the caller can detect the failure by
observing an entirely zero-valued grid. -/
theorem failure_returns_empty_grid (W H sw sh : ℚ) :
    ∃ g : Grid, fromShapeRect W H sw sh false = Except.ok g ∧
      g.h = numGridHeight H sh ∧ g.w = numGridWidth W sw ∧
      ∀ r c, g.cell r c = 0 :=
  ⟨{ h := numGridHeight H sh, w := numGridWidth W sw, cell := fun _ _ => 0 },
   rfl, rfl, rfl, fun _ _ => rfl⟩

/-- C10: the success and failure paths of `Chart.from_shape` return
charts of different row counts — on success, `_insert_symbol` adds
one all-empty top row, giving `floor(H/sh) + 1` rows, while the
polygon-failure path returns the untouched zero array with
`floor(H/sh)` rows. -/
theorem success_failure_row_count (W H sw sh : ℚ) :
    (∀ g : Grid, rasterizeRect W H sw sh = Except.ok g →
      fromShapeRect W H sw sh true = Except.ok (insertSymbol g) ∧
      (insertSymbol g).h = numGridHeight H sh + 1) ∧
    (∀ g : Grid, fromShapeRect W H sw sh false = Except.ok g →
      g.h = numGridHeight H sh) := by
  constructor
  · intro g hg
    constructor
    · show (match rasterizeRect W H sw sh with
        | Except.error e => Except.error e
        | Except.ok g2 => Except.ok (insertSymbol g2)) = Except.ok (insertSymbol g)
      rw [hg]
    · have hgh : g.h = numGridHeight H sh := by
        unfold rasterizeRect at hg
        by_cases hc : rasterCrash W H sw sh
        · rw [if_pos hc] at hg
          simp at hg
        · rw [if_neg hc] at hg
          injection hg with h2
          rw [← h2]
          rfl
      rw [insertSymbol_h, hgh]
  · intro g hg
    have e : fromShapeRect W H sw sh false = Except.ok
        { h := numGridHeight H sh, w := numGridWidth W sw, cell := fun _ _ => 0 } := rfl
    rw [e] at hg
    injection hg with h2
    rw [← h2]

/-- C10 witness: the row-count discrepancy evaluated at
`W = 10, H = 20, sw = sh = 10` (success path has 3 rows, failure
path 2). -/
theorem success_failure_row_count_witness :
    rasterizeRect 10 20 10 10 = Except.ok (rasterGrid 10 20 10 10) ∧
    fromShapeRect 10 20 10 10 true = Except.ok (insertSymbol (rasterGrid 10 20 10 10)) ∧
    (insertSymbol (rasterGrid 10 20 10 10)).h = numGridHeight 20 10 + 1 := by
  have e1 : sampleRows 20 10 = 2 := by
    unfold sampleRows; rw [Nat.ceil_eq_iff (by norm_num)]; norm_num
  have e2 : sampleCols 10 10 = 1 := by
    unfold sampleCols; rw [Nat.ceil_eq_iff (by norm_num)]; norm_num
  have e3 : numGridHeight 20 10 = 2 := by
    unfold numGridHeight; rw [Nat.floor_eq_iff (by norm_num)]; norm_num
  have e4 : numGridWidth 10 10 = 1 := by
    unfold numGridWidth; rw [Nat.floor_eq_iff (by norm_num)]; norm_num
  have hok : rasterizeRect 10 20 10 10 = Except.ok (rasterGrid 10 20 10 10) := by
    unfold rasterizeRect
    rw [if_neg ?hc]
    case hc =>
      rintro ⟨r, hr, c, hc2, hin, hor⟩
      rw [e1] at hr
      rw [e2] at hc2
      rw [e3, e4] at hor
      omega
  have happ := (success_failure_row_count 10 20 10 10).1 (rasterGrid 10 20 10 10) hok
  exact ⟨hok, happ.1, happ.2⟩
